import Mathlib

/-!
Shallow embedding of the Department REST controller
(`src/app/routers/DepartmentRouter.py`) of the Persistencia-TP3 repository.

The store (MongoDB via Motor) is modelled as explicit in-memory collections of
documents; each route handler becomes a pure function from the store state and
the request arguments to an HTTP-level result (`Except Nat out`, the `Nat`
being the error status code) together with the store state after the request.

The Python handlers wrap their bodies in `try/except`.  Crucially, the bare
`except Exception:` clause at the end of each handler also catches the
`fastapi.HTTPException` values raised *inside* the `try` block (HTTPException
subclasses Exception), so an `HTTPException(404)` raised in the body is
re-raised as a generic `HTTPException(500)`.  The embedding keeps the two
layers separate: a `...Body` function produces the raised exception
(`PyExc`), and the route function applies the handler chain to it.
-/

namespace DeptService

/-- Hexadecimal digit test, as accepted by `bytes.fromhex` inside
`bson.ObjectId`. -/
def isHexChar (c : Char) : Bool :=
  (('0' ≤ c) && (c ≤ '9')) || (('a' ≤ c) && (c ≤ 'f')) || (('A' ≤ c) && (c ≤ 'F'))

/-- Lower-case a string character-wise. -/
def lowerStr (s : String) : String := ⟨s.data.map Char.toLower⟩

/-- `bson.ObjectId(s)` on a `str` argument: accepts exactly the 24-character
hexadecimal strings and raises `InvalidId` otherwise.  The embedding
identifies an ObjectId with its canonical (lower-case) hexadecimal string
form, which is also what `str(oid)` returns; `none` means `InvalidId` was
raised. -/
def parseObjectId (s : String) : Option String :=
  if s.length == 24 && s.toList.all isHexChar then some (lowerStr s) else none

/-- The caller-supplied partial field set of a department.

Modelled from the spec: `app/models/Department.py` (the pydantic
`DepartmentCreate` model) is not in `src/`; per §3 of the spec the fields are
`name`, `location`, `manager_id`, `employee_ids`, any subset of which may be
supplied (`department.model_dump(exclude_unset=True)` keeps exactly the
supplied fields).  `none` means the field was not supplied. -/
structure DepartmentData where
  name : Option String
  location : Option String
  manager_id : Option String
  employee_ids : Option (List String)
deriving DecidableEq

/-- A stored department document.  `_id` is the ObjectId in its canonical
string form; the remaining fields are present (`some`) or absent (`none`) in
the document. -/
structure DepartmentDoc where
  _id : String
  name : Option String
  location : Option String
  manager_id : Option String
  employee_ids : Option (List String)
deriving DecidableEq

/-- A stored employee document (external collection, consumed here).
`department_id` is a plain string reference or null/absent (`none`);
`benefits_id` is read with `emp.get("benefits_id", [])`, so an absent field
behaves as the empty list. -/
structure EmployeeDoc where
  _id : String
  department_id : Option String
  benefits_id : List String
deriving DecidableEq

/-- A stored benefit document (external collection, consumed here). -/
structure BenefitDoc where
  _id : String
  name : Option String
deriving DecidableEq

/-- The document store: the three collections touched by the router, each in
its natural (insertion) order. -/
structure DB where
  departments : List DepartmentDoc
  employees : List EmployeeDoc
  benefits : List BenefitDoc
deriving DecidableEq

/-- Exceptions that can be raised inside a handler's `try` block:
`invalidId` from `bson.ObjectId`, `httpExc c` from an explicit
`raise HTTPException(status_code=c, ...)`, and `otherExc` for any other
exception (KeyError, driver errors, ...). -/
inductive PyExc where
  | invalidId
  | httpExc (code : Nat)
  | otherExc
deriving DecidableEq

/-- The handler chain of `update_department` / `delete_department` /
`get_department`: `except InvalidId:` re-raises as 400, and the following
bare `except Exception:` turns every other exception — including an
`HTTPException(404)` raised inside the `try` — into a 500. -/
def handleIdRoute (r : Except PyExc α) : Except Nat α :=
  match r with
  | .ok a => .ok a
  | .error .invalidId => .error 400
  | .error _ => .error 500

/-- The handler chain of the routes that only have a bare
`except Exception:` clause: every exception becomes a 500. -/
def handleAnyRoute (r : Except PyExc α) : Except Nat α :=
  match r with
  | .ok a => .ok a
  | .error _ => .error 500

/-- Merge-patch of one field: a supplied value overwrites, an omitted field
keeps the stored value (the `$set` update document holds exactly the supplied
fields). -/
def setField (pv dv : Option α) : Option α :=
  match pv with
  | some v => some v
  | none => dv

/-- Apply the `$set` update document built from `p` to the document `d`. -/
def applyPatch (d : DepartmentDoc) (p : DepartmentData) : DepartmentDoc :=
  { _id := d._id
    name := setField p.name d.name
    location := setField p.location d.location
    manager_id := setField p.manager_id d.manager_id
    employee_ids := setField p.employee_ids d.employee_ids }

/-- `department_collection.find_one({"_id": oid})`: first document with the
given `_id`, in natural order. -/
def findDept (ds : List DepartmentDoc) (oid : String) : Option DepartmentDoc :=
  ds.find? (fun d => d._id == oid)

/-- `department_collection.update_one({"_id": oid}, {"$set": patch})`:
patch the first matching document; `none` when `matched_count == 0`. -/
def updateFirstDept : List DepartmentDoc → String → DepartmentData → Option (List DepartmentDoc)
  | [], _, _ => none
  | d :: ds, oid, p =>
      if d._id == oid then some (applyPatch d p :: ds)
      else (updateFirstDept ds oid p).map (fun ds2 => d :: ds2)

/-- `department_collection.delete_one({"_id": oid})`: remove the first
matching document; `none` when `deleted_count == 0`. -/
def deleteFirstDept : List DepartmentDoc → String → Option (List DepartmentDoc)
  | [], _ => none
  | d :: ds, oid =>
      if d._id == oid then some ds
      else (deleteFirstDept ds oid).map (fun ds2 => d :: ds2)

/-- `employee_collection.update_many({"department_id": s}, {"$set":
{"department_id": None}})`: clear the reference on every employee whose
`department_id` equals the raw string `s`. -/
def clearDeptRef (es : List EmployeeDoc) (s : String) : List EmployeeDoc :=
  es.map (fun e => if e.department_id == some s then { e with department_id := none } else e)

/-- `modified_count` of that `update_many`: every matched document changes
(a string value is replaced by null), so it is the number of matches. -/
def countDeptRef (es : List EmployeeDoc) (s : String) : Nat :=
  es.countP (fun e => e.department_id == some s)

/-- Body of `update_department` (the code inside `try`): parse the id, issue
the `$set` update, re-read and return the updated document.  A zero
`matched_count` raises `HTTPException(404)`. -/
def updateBody (db : DB) (ids : String) (p : DepartmentData) :
    Except PyExc DepartmentDoc × DB :=
  match parseObjectId ids with
  | none => (.error .invalidId, db)
  | some oid =>
      match updateFirstDept db.departments oid p with
      | none => (.error (.httpExc 404), db)
      | some ds2 =>
          let db2 : DB := { db with departments := ds2 }
          match findDept ds2 oid with
          | some u => (.ok u, db2)
          | none => (.error .otherExc, db2)

/-- `PUT /departments/{department_id}`. -/
def update_department (db : DB) (ids : String) (p : DepartmentData) :
    Except Nat DepartmentDoc × DB :=
  let r := updateBody db ids p
  (handleIdRoute r.1, r.2)

/-- The success payload of `delete_department`. -/
structure DeleteOut where
  detail : String
  employees_updated : Nat
deriving DecidableEq

/-- Body of `delete_department`: parse the id, then (step 1) clear
`department_id` on all employees matching the *raw string*, then (step 2)
delete the department by the *parsed* id; a zero `deleted_count` raises
`HTTPException(404)` — after step 1 has already been applied, with no
rollback. -/
def deleteBody (db : DB) (ids : String) : Except PyExc DeleteOut × DB :=
  match parseObjectId ids with
  | none => (.error .invalidId, db)
  | some oid =>
      let n := countDeptRef db.employees ids
      let db1 : DB := { db with employees := clearDeptRef db.employees ids }
      match deleteFirstDept db1.departments oid with
      | none => (.error (.httpExc 404), db1)
      | some ds2 =>
          (.ok { detail := "Departamento deletado com sucesso", employees_updated := n },
           { db1 with departments := ds2 })

/-- `DELETE /departments/{department_id}`. -/
def delete_department (db : DB) (ids : String) : Except Nat DeleteOut × DB :=
  let r := deleteBody db ids
  (handleIdRoute r.1, r.2)

/-- Body of `get_department`: parse the id and `find_one`; absence raises
`HTTPException(404)`.  Read-only. -/
def getBody (db : DB) (ids : String) : Except PyExc DepartmentDoc :=
  match parseObjectId ids with
  | none => .error .invalidId
  | some oid =>
      match findDept db.departments oid with
      | none => .error (.httpExc 404)
      | some d => .ok d

/-- `GET /departments/{department_id}`. -/
def get_department (db : DB) (ids : String) : Except Nat DepartmentDoc :=
  handleIdRoute (getBody db ids)

/-- Body of `create_department`: insert a document holding exactly the
supplied fields with a server-generated `_id` (passed here as `newId`;
a duplicate `_id` would make `insert_one` raise a driver error), then
re-read it by that id.  The dead `find_one` failure branch raises
`HTTPException(500)` as in the source. -/
def createBody (db : DB) (p : DepartmentData) (newId : String) :
    Except PyExc DepartmentDoc × DB :=
  if db.departments.any (fun d => d._id == newId) then
    (.error .otherExc, db)
  else
    let doc : DepartmentDoc :=
      { _id := newId, name := p.name, location := p.location,
        manager_id := p.manager_id, employee_ids := p.employee_ids }
    let ds2 := db.departments ++ [doc]
    match findDept ds2 newId with
    | some created => (.ok created, { db with departments := ds2 })
    | none => (.error (.httpExc 500), { db with departments := ds2 })

/-- `POST /departments/`. -/
def create_department (db : DB) (p : DepartmentData) (newId : String) :
    Except Nat DepartmentDoc × DB :=
  let r := createBody db p newId
  (handleAnyRoute r.1, r.2)

/-- The paginated envelope returned by `list_departments`. -/
structure PagedOut where
  total : Nat
  skip : Nat
  limit : Nat
  data : List DepartmentDoc
deriving DecidableEq

/-- `GET /departments/`: `count_documents({})` for the unfiltered total, then
`find().skip(skip).limit(limit).to_list(length=limit)` — a page of at most
`limit` documents starting at offset `skip` in natural order. -/
def list_departments (db : DB) (skip limit : Nat) : Except Nat PagedOut :=
  .ok { total := db.departments.length, skip := skip, limit := limit,
        data := (db.departments.drop skip).take limit }

/-- `GET /departments/count`. -/
def count_departments (db : DB) : Except Nat Nat :=
  .ok db.departments.length

/-- A token of a regular-expression pattern in the fragment the model covers:
a literal character or the `.` wildcard. -/
inductive RTok where
  | anyChar
  | lit (c : Char)
deriving DecidableEq

/-- Read the query string as a pattern.  The store evaluates the `name` query
parameter as a PCRE pattern (`{"$regex": name, "$options": "i"}`); the model
covers the fragment built from literal characters and the `.` wildcard, and
the theorems below only instantiate it inside this fragment. -/
def strPat (s : String) : List RTok :=
  s.toList.map (fun c => if c == '.' then RTok.anyChar else RTok.lit c)

/-- One pattern token against one subject character, under the `i`
(case-insensitive) option. -/
def tokMatch : RTok → Char → Bool
  | .anyChar, _ => true
  | .lit a, c => a.toLower == c.toLower

/-- The whole pattern against the subject starting at its head. -/
def matchHere : List RTok → List Char → Bool
  | [], _ => true
  | _ :: _, [] => false
  | t :: ts, c :: cs => tokMatch t c && matchHere ts cs

/-- Unanchored regex search: the pattern matches starting at some position of
the subject (Mongo `$regex` is a search, not a full match). -/
def matchSome : List RTok → List Char → Bool
  | p, [] => matchHere p []
  | p, c :: cs => matchHere p (c :: cs) || matchSome p cs

/-- `{"name": {"$regex": q, "$options": "i"}}` on one subject string. -/
def regexFindI (q : String) (s : String) : Bool :=
  matchSome (strPat q) s.toList

/-- The `name` filter on one document: a document without a `name` field
never matches. -/
def nameMatches (q : String) (d : DepartmentDoc) : Bool :=
  match d.name with
  | some nm => regexFindI q nm
  | none => false

/-- `GET /departments/get_by_name`: regex filter, then `skip`/`limit` as in
`list_departments`. -/
def get_departments_by_name (db : DB) (q : String) (skip limit : Nat) :
    Except Nat (List DepartmentDoc) :=
  .ok (((db.departments.filter (nameMatches q)).drop skip).take limit)

/-- Spec-side notion, for comparison with the code's regex filter: `q` occurs
as a contiguous prefix of `s` (exact characters). -/
def hasPre : List Char → List Char → Bool
  | [], _ => true
  | _ :: _, [] => false
  | a :: as, b :: bs => a == b && hasPre as bs

/-- Spec-side notion: `q` occurs as a contiguous sublist of `s`. -/
def hasSub : List Char → List Char → Bool
  | q, [] => hasPre q []
  | q, b :: bs => hasPre q (b :: bs) || hasSub q bs

/-- Lower-case a character list. -/
def lowAll (l : List Char) : List Char := l.map Char.toLower

/-- Spec-side notion (the spec's words for `get_by_name`): case-insensitive
substring containment. -/
def ciContains (q s : String) : Bool :=
  hasSub (lowAll q.toList) (lowAll s.toList)

/-- PCRE metacharacters: a query built only of other characters is matched
literally by the regex engine. -/
def isRegexMeta (c : Char) : Bool :=
  c == '.' || c == '^' || c == '$' || c == '*' || c == '+' || c == '?' ||
  c == '(' || c == ')' || c == '[' || c == ']' || c == '{' || c == '}' ||
  c == '|' || c == '\\'

/-- `GET /departments/get_department_by_manager`: exact raw-string match on
`manager_id`, no identifier parsing, no pagination. -/
def get_departments_by_manager (db : DB) (m : String) :
    Except Nat (List DepartmentDoc) :=
  .ok (db.departments.filter (fun d => d.manager_id == some m))

/-- `GET /departments/get_by_employee/{employee_id}`:
`{"employee_ids": employee_id}` matches the documents whose `employee_ids`
array contains the raw string; no identifier parsing, no pagination. -/
def get_departments_by_employee (db : DB) (m : String) :
    Except Nat (List DepartmentDoc) :=
  .ok (db.departments.filter (fun d => (d.employee_ids.getD []).contains m))

/-- An employee as embedded in the full-info response: the employee document
plus the resolved `benefits` field. -/
structure EnrichedEmployee where
  _id : String
  department_id : Option String
  benefits_id : List String
  benefits : List BenefitDoc
deriving DecidableEq

/-- One entry of the full-info response. -/
structure FullInfoEntry where
  department_id : String
  department_name : String
  location : Option String
  employees : List EnrichedEmployee
deriving DecidableEq

/-- `[ObjectId(bid) for bid in emp.get("benefits_id", [])]`: parse the ids
left to right; the first failure raises `InvalidId` out of the loop. -/
def parseAllIds : List String → Option (List String)
  | [] => some []
  | b :: bs =>
      match parseObjectId b with
      | none => none
      | some o => (parseAllIds bs).map (fun os => o :: os)

/-- Enrich one employee: parse all its benefit ids, then
`benefit_collection.find({"_id": {"$in": benefit_ids}})` — the benefits, in
collection order, whose `_id` is among the parsed ids. -/
def enrichEmp (benefits : List BenefitDoc) (e : EmployeeDoc) :
    Except PyExc EnrichedEmployee :=
  match parseAllIds e.benefits_id with
  | none => .error .invalidId
  | some oids =>
      .ok { _id := e._id, department_id := e.department_id,
            benefits_id := e.benefits_id,
            benefits := benefits.filter (fun b => oids.contains b._id) }

/-- The Python for-loop over a list whose body may raise: stop at the first
exception. -/
def mapE (f : α → Except PyExc β) : List α → Except PyExc (List β)
  | [] => .ok []
  | a :: as =>
      match f a with
      | .error e => .error e
      | .ok b =>
          match mapE f as with
          | .error e => .error e
          | .ok bs => .ok (b :: bs)

/-- One loop iteration of the full-info route: the employees whose
`department_id` equals the department's stringified id, each enriched with
its resolved benefits.  `dep["name"]` raises `KeyError` when the document has
no `name` field. -/
def entryFor (db : DB) (dep : DepartmentDoc) : Except PyExc FullInfoEntry :=
  match dep.name with
  | none => .error .otherExc
  | some nm =>
      match mapE (enrichEmp db.benefits)
          (db.employees.filter (fun e => e.department_id == some dep._id)) with
      | .error e => .error e
      | .ok emps =>
          .ok { department_id := dep._id, department_name := nm,
                location := dep.location, employees := emps }

/-- Body of the full-info route: the loop over every department. -/
def fullInfoBody (db : DB) : Except PyExc (List FullInfoEntry) :=
  mapE (entryFor db) db.departments

/-- `GET /departments/departments/full_info`: only a bare
`except Exception:` handler, so any exception in the body becomes a 500. -/
def get_departments_with_employees_and_benefits (db : DB) :
    Except Nat (List FullInfoEntry) :=
  handleAnyRoute (fullInfoBody db)

/-- Claim C2: for every identifier string that cannot be parsed as an
ObjectId, each of update, get and delete fails with HTTP 400 (the `InvalidId`
raised by `bson.ObjectId` is caught by `except InvalidId:` before the generic
handler), and therefore never with 404 or 500. -/
theorem invalid_id_always_400 (db : DB) (s : String) (p : DepartmentData)
    (h : parseObjectId s = none) :
    (update_department db s p).1 = .error 400 ∧
    get_department db s = .error 400 ∧
    (delete_department db s).1 = .error 400 := by
  refine ⟨?_, ?_, ?_⟩ <;>
    simp [update_department, get_department, delete_department,
      updateBody, getBody, deleteBody, h, handleIdRoute]

/-- Witness for C2 at the concrete malformed identifier `"not-an-objectid"`
on a singleton store. -/
theorem invalid_id_always_400_witness :
    (update_department ⟨[⟨"0123456789abcdef01234567", some "A", none, none, none⟩], [], []⟩
        "not-an-objectid" ⟨none, none, none, none⟩).1 = .error 400 ∧
    get_department ⟨[⟨"0123456789abcdef01234567", some "A", none, none, none⟩], [], []⟩
        "not-an-objectid" = .error 400 ∧
    (delete_department ⟨[⟨"0123456789abcdef01234567", some "A", none, none, none⟩], [], []⟩
        "not-an-objectid").1 = .error 400 :=
  invalid_id_always_400 _ _ _ (by decide)

/-- Claim C9: `delete_department` parses the identifier before issuing the
employee fan-out update, so on an unparseable identifier it returns 400 with
both collections (the whole store state) unchanged. -/
theorem delete_invalid_id_leaves_store_unchanged (db : DB) (s : String)
    (h : parseObjectId s = none) :
    delete_department db s = (.error 400, db) := by
  simp [delete_department, deleteBody, h, handleIdRoute]

/-- Witness for C9 at the concrete malformed identifier `"zzz"` on a store
holding one employee that references `"zzz"` verbatim. -/
theorem delete_invalid_id_leaves_store_unchanged_witness :
    delete_department ⟨[], [⟨"e1", some "zzz", []⟩], []⟩ "zzz" =
      (.error 400, ⟨[], [⟨"e1", some "zzz", []⟩], []⟩) :=
  delete_invalid_id_leaves_store_unchanged _ _ (by decide)

/-- Claim C10: `get_department_by_manager` and `get_by_employee/{id}` never
parse the input as an ObjectId: for every input string they succeed (HTTP
200) with the raw-string filter result, never a 400; in particular an
unparseable identifier yields an empty 200 list on an empty store. -/
theorem manager_employee_queries_accept_any_string :
    (∀ (db : DB) (s : String),
      get_departments_by_manager db s =
        .ok (db.departments.filter (fun d => d.manager_id == some s)) ∧
      get_departments_by_employee db s =
        .ok (db.departments.filter (fun d => (d.employee_ids.getD []).contains s))) ∧
    get_departments_by_manager ⟨[], [], []⟩ "not-an-objectid!" = .ok [] ∧
    get_departments_by_employee ⟨[], [], []⟩ "not-an-objectid!" = .ok [] :=
  ⟨fun _ _ => ⟨rfl, rfl⟩, rfl, rfl⟩

/-- Claim C8: `list_departments` returns the unfiltered total alongside the
page `(drop skip).take limit` of the collection in natural order, whose
length never exceeds `limit`; concretely, on 15 departments,
`list(skip := 0, limit := 10)` reports `total = 15` with 10 records of data. -/
theorem list_reports_unfiltered_total_and_page :
    (∀ (db : DB) (skip limit : Nat),
      list_departments db skip limit =
        .ok { total := db.departments.length, skip := skip, limit := limit,
              data := (db.departments.drop skip).take limit } ∧
      ((db.departments.drop skip).take limit).length ≤ limit) ∧
    (∃ out,
      list_departments
        ⟨List.replicate 15 ⟨"0123456789abcdef01234567", some "D", none, none, none⟩, [], []⟩
        0 10 = .ok out ∧
      out.total = 15 ∧ out.data.length = 10) := by
  refine ⟨fun db skip limit => ⟨rfl, ?_⟩, ⟨_, rfl, rfl, rfl⟩⟩
  simp

/-- Claim C1 (divergence witness): on a valid 24-hex identifier matching no
department, the body of get/update/delete raises `HTTPException(404)` as the
spec describes, but the bare `except Exception:` clause catches it and
re-raises a 500 — so the observable status is 500, not 404.  For delete, step
1 (the employee fan-out) remains applied: the employee referencing the
identifier ends with `department_id = none` even though the route errors. -/
theorem notfound_is_500_and_fanout_persists :
    getBody ⟨[], [⟨"e1", some "0123456789abcdef01234567", []⟩], []⟩
        "0123456789abcdef01234567" = .error (.httpExc 404) ∧
    get_department ⟨[], [⟨"e1", some "0123456789abcdef01234567", []⟩], []⟩
        "0123456789abcdef01234567" = .error 500 ∧
    (updateBody ⟨[], [⟨"e1", some "0123456789abcdef01234567", []⟩], []⟩
        "0123456789abcdef01234567" ⟨some "X", none, none, none⟩).1 = .error (.httpExc 404) ∧
    (update_department ⟨[], [⟨"e1", some "0123456789abcdef01234567", []⟩], []⟩
        "0123456789abcdef01234567" ⟨some "X", none, none, none⟩).1 = .error 500 ∧
    deleteBody ⟨[], [⟨"e1", some "0123456789abcdef01234567", []⟩], []⟩
        "0123456789abcdef01234567" =
      (.error (.httpExc 404), ⟨[], [⟨"e1", none, []⟩], []⟩) ∧
    delete_department ⟨[], [⟨"e1", some "0123456789abcdef01234567", []⟩], []⟩
        "0123456789abcdef01234567" =
      (.error 500, ⟨[], [⟨"e1", none, []⟩], []⟩) :=
  ⟨rfl, rfl, rfl, rfl, rfl, rfl⟩

/-- Claim C3 (counterexample): a benefit identifier that fails to parse is
*not* silently discarded — `ObjectId(bid)` raises `InvalidId`, the route's
only handler is the bare `except Exception:`, and the whole full-info request
fails with 500. -/
theorem fullinfo_unparseable_benefit_id_is_500 :
    parseObjectId "zzz" = none ∧
    get_departments_with_employees_and_benefits
      ⟨[⟨"0123456789abcdef01234567", some "D", none, none, none⟩],
       [⟨"e1", some "0123456789abcdef01234567", ["zzz"]⟩], []⟩ = .error 500 :=
  ⟨rfl, rfl⟩

/-- `delete_one` succeeds whenever some document matches the id. -/
theorem deleteFirstDept_isSome (oid : String) :
    ∀ ds : List DepartmentDoc, ds.any (fun d => d._id == oid) = true →
    ∃ ds2, deleteFirstDept ds oid = some ds2 := by
  intro ds h
  induction ds with
  | nil => simp at h
  | cons d ds ih =>
      by_cases hd : (d._id == oid) = true
      · exact ⟨ds, by simp [deleteFirstDept, hd]⟩
      · have hb : (d._id == oid) = false := by simpa using hd
        simp only [List.any_cons, hb, Bool.false_or] at h
        obtain ⟨ds2, h2⟩ := ih h
        exact ⟨d :: ds2, by simp [deleteFirstDept, hb, h2]⟩

/-- After the fan-out update, no employee references the raw string any
more. -/
theorem clearDeptRef_clears (es : List EmployeeDoc) (s : String) :
    (clearDeptRef es s).countP (fun e => e.department_id == some s) = 0 := by
  induction es with
  | nil => rfl
  | cons e es ih =>
      have hcons : clearDeptRef (e :: es) s =
          (if e.department_id == some s then { e with department_id := none } else e)
            :: clearDeptRef es s := rfl
      rw [hcons, List.countP_cons, ih]
      by_cases he : (e.department_id == some s) = true
      · simp [he]
      · have hb : (e.department_id == some s) = false := by simpa using he
        simp [hb]

/-- Claim C4: deleting an existing department first nulls `department_id` on
exactly the employees whose `department_id` equals the raw identifier string
(`N` of them), then removes the department document, and answers 200 with
`employees_updated = N`; afterwards no employee references the identifier and
no employee document was dropped. -/
theorem delete_fanout_then_remove (db : DB) (s oid : String) (N : Nat)
    (hp : parseObjectId s = some oid)
    (hex : db.departments.any (fun d => d._id == oid) = true)
    (hN : countDeptRef db.employees s = N) :
    ∃ ds2, deleteFirstDept db.departments oid = some ds2 ∧
      delete_department db s =
        (.ok { detail := "Departamento deletado com sucesso", employees_updated := N },
         { departments := ds2, employees := clearDeptRef db.employees s,
           benefits := db.benefits }) ∧
      (clearDeptRef db.employees s).countP (fun e => e.department_id == some s) = 0 ∧
      (clearDeptRef db.employees s).length = db.employees.length := by
  obtain ⟨ds2, hds⟩ := deleteFirstDept_isSome oid db.departments hex
  refine ⟨ds2, hds, ?_, clearDeptRef_clears db.employees s, ?_⟩
  · simp [delete_department, deleteBody, hp, hds, handleIdRoute, hN]
  · simp [clearDeptRef]

/-- Witness for C4: a department referenced by two of the three stored
employees; deleting it updates exactly those two and removes the
department. -/
theorem delete_fanout_then_remove_witness :
    ∃ ds2,
      deleteFirstDept [⟨"0123456789abcdef01234567", some "D", none, none, none⟩]
          "0123456789abcdef01234567" = some ds2 ∧
      delete_department
          ⟨[⟨"0123456789abcdef01234567", some "D", none, none, none⟩],
           [⟨"e1", some "0123456789abcdef01234567", []⟩,
            ⟨"e2", some "0123456789abcdef01234567", []⟩,
            ⟨"e3", some "otherdept", []⟩], []⟩
          "0123456789abcdef01234567" =
        (.ok { detail := "Departamento deletado com sucesso", employees_updated := 2 },
         { departments := ds2,
           employees := clearDeptRef
             [⟨"e1", some "0123456789abcdef01234567", []⟩,
              ⟨"e2", some "0123456789abcdef01234567", []⟩,
              ⟨"e3", some "otherdept", []⟩] "0123456789abcdef01234567",
           benefits := [] }) ∧
      (clearDeptRef
        [⟨"e1", some "0123456789abcdef01234567", []⟩,
         ⟨"e2", some "0123456789abcdef01234567", []⟩,
         ⟨"e3", some "otherdept", []⟩] "0123456789abcdef01234567").countP
          (fun e => e.department_id == some "0123456789abcdef01234567") = 0 ∧
      (clearDeptRef
        [⟨"e1", some "0123456789abcdef01234567", []⟩,
         ⟨"e2", some "0123456789abcdef01234567", []⟩,
         ⟨"e3", some "otherdept", []⟩] "0123456789abcdef01234567").length = 3 :=
  delete_fanout_then_remove
    ⟨[⟨"0123456789abcdef01234567", some "D", none, none, none⟩],
     [⟨"e1", some "0123456789abcdef01234567", []⟩,
      ⟨"e2", some "0123456789abcdef01234567", []⟩,
      ⟨"e3", some "otherdept", []⟩], []⟩
    "0123456789abcdef01234567" "0123456789abcdef01234567" 2
    (by decide) (by decide) (by decide)

/-- `update_one` patches the first document matching the id, and the
re-reading `find_one` then returns exactly that patched document. -/
theorem findDept_updateFirst (oid : String) (p : DepartmentData) :
    ∀ (ds : List DepartmentDoc) (d : DepartmentDoc),
    ds.find? (fun x => x._id == oid) = some d →
    ∃ ds2, updateFirstDept ds oid p = some ds2 ∧
      findDept ds2 oid = some (applyPatch d p) := by
  intro ds
  induction ds with
  | nil => intro d h; simp at h
  | cons x xs ih =>
      intro d h
      by_cases hx : (x._id == oid) = true
      · simp only [List.find?_cons, hx] at h
        obtain rfl : x = d := by injection h
        refine ⟨applyPatch x p :: xs, by simp [updateFirstDept, hx], ?_⟩
        have hx2 : ((applyPatch x p)._id == oid) = true := hx
        simp [findDept, List.find?_cons, hx2]
      · have hb : (x._id == oid) = false := by simpa using hx
        simp only [List.find?_cons, hb] at h
        obtain ⟨ds2, h1, h2⟩ := ih d h
        refine ⟨x :: ds2, by simp [updateFirstDept, hb, h1], ?_⟩
        simp only [findDept, List.find?_cons, hb]
        exact h2

/-- Claim C5: `update` is a merge-patch.  On an existing department (`d` is
the document `find_one` returns for the parsed id) and any partial field set,
the route succeeds and returns a document with the same id in which every
supplied field carries the supplied value and every omitted field keeps its
stored value. -/
theorem update_merges (db : DB) (s oid : String) (p : DepartmentData) (d : DepartmentDoc)
    (hp : parseObjectId s = some oid)
    (hd : findDept db.departments oid = some d) :
    ∃ u, (update_department db s p).1 = .ok u ∧ u._id = d._id ∧
      (p.name = none → u.name = d.name) ∧
      (∀ v, p.name = some v → u.name = some v) ∧
      (p.location = none → u.location = d.location) ∧
      (∀ v, p.location = some v → u.location = some v) ∧
      (p.manager_id = none → u.manager_id = d.manager_id) ∧
      (∀ v, p.manager_id = some v → u.manager_id = some v) ∧
      (p.employee_ids = none → u.employee_ids = d.employee_ids) ∧
      (∀ v, p.employee_ids = some v → u.employee_ids = some v) := by
  obtain ⟨ds2, h1, h2⟩ := findDept_updateFirst oid p db.departments d hd
  refine ⟨applyPatch d p, ?_, rfl, ?_, ?_, ?_, ?_, ?_, ?_, ?_, ?_⟩
  · simp [update_department, updateBody, hp, h1, h2, handleIdRoute]
  · intro h; simp [applyPatch, setField, h]
  · intro v h; simp [applyPatch, setField, h]
  · intro h; simp [applyPatch, setField, h]
  · intro v h; simp [applyPatch, setField, h]
  · intro h; simp [applyPatch, setField, h]
  · intro v h; simp [applyPatch, setField, h]
  · intro h; simp [applyPatch, setField, h]
  · intro v h; simp [applyPatch, setField, h]

/-- Witness for C5: updating only `location` of a fully populated department
leaves `name`, `manager_id` and `employee_ids` unchanged. -/
theorem update_merges_witness :
    ∃ u,
      (update_department
        ⟨[⟨"0123456789abcdef01234567", some "Engineering", some "HQ", some "m1",
           some ["e1", "e2"]⟩], [], []⟩
        "0123456789abcdef01234567" ⟨none, some "Lisbon", none, none⟩).1 = .ok u ∧
      u._id = (⟨"0123456789abcdef01234567", some "Engineering", some "HQ", some "m1",
        some ["e1", "e2"]⟩ : DepartmentDoc)._id ∧
      ((⟨none, some "Lisbon", none, none⟩ : DepartmentData).name = none →
        u.name = (⟨"0123456789abcdef01234567", some "Engineering", some "HQ", some "m1",
          some ["e1", "e2"]⟩ : DepartmentDoc).name) ∧
      (∀ v, (⟨none, some "Lisbon", none, none⟩ : DepartmentData).name = some v →
        u.name = some v) ∧
      ((⟨none, some "Lisbon", none, none⟩ : DepartmentData).location = none →
        u.location = (⟨"0123456789abcdef01234567", some "Engineering", some "HQ", some "m1",
          some ["e1", "e2"]⟩ : DepartmentDoc).location) ∧
      (∀ v, (⟨none, some "Lisbon", none, none⟩ : DepartmentData).location = some v →
        u.location = some v) ∧
      ((⟨none, some "Lisbon", none, none⟩ : DepartmentData).manager_id = none →
        u.manager_id = (⟨"0123456789abcdef01234567", some "Engineering", some "HQ", some "m1",
          some ["e1", "e2"]⟩ : DepartmentDoc).manager_id) ∧
      (∀ v, (⟨none, some "Lisbon", none, none⟩ : DepartmentData).manager_id = some v →
        u.manager_id = some v) ∧
      ((⟨none, some "Lisbon", none, none⟩ : DepartmentData).employee_ids = none →
        u.employee_ids = (⟨"0123456789abcdef01234567", some "Engineering", some "HQ", some "m1",
          some ["e1", "e2"]⟩ : DepartmentDoc).employee_ids) ∧
      (∀ v, (⟨none, some "Lisbon", none, none⟩ : DepartmentData).employee_ids = some v →
        u.employee_ids = some v) :=
  update_merges
    ⟨[⟨"0123456789abcdef01234567", some "Engineering", some "HQ", some "m1",
       some ["e1", "e2"]⟩], [], []⟩
    "0123456789abcdef01234567" "0123456789abcdef01234567"
    ⟨none, some "Lisbon", none, none⟩
    ⟨"0123456789abcdef01234567", some "Engineering", some "HQ", some "m1", some ["e1", "e2"]⟩
    (by decide) (by decide)

/-- `find_one` right after inserting a document with a fresh id returns that
document. -/
theorem findDept_append_fresh :
    ∀ (ds : List DepartmentDoc) (doc : DepartmentDoc),
    ds.any (fun d => d._id == doc._id) = false →
    findDept (ds ++ [doc]) doc._id = some doc := by
  intro ds doc
  induction ds with
  | nil =>
      intro _
      simp [findDept, List.find?_cons]
  | cons x xs ih =>
      intro h
      simp only [List.any_cons, Bool.or_eq_false_iff] at h
      simp only [findDept, List.cons_append, List.find?_cons, h.1]
      exact ih h.2

/-- Claim C6: `create` inserts a document holding exactly the supplied fields
(omitted fields are absent, not null), returns it with a non-empty
identifier, and a subsequent `get` on that identifier returns the same
record. -/
theorem create_then_get_roundtrip (db : DB) (p : DepartmentData) (newId : String)
    (hv : parseObjectId newId = some newId)
    (hfresh : db.departments.any (fun d => d._id == newId) = false) :
    ∃ out db2, create_department db p newId = (.ok out, db2) ∧
      out._id = newId ∧ newId ≠ "" ∧
      out.name = p.name ∧ out.location = p.location ∧
      out.manager_id = p.manager_id ∧ out.employee_ids = p.employee_ids ∧
      get_department db2 newId = .ok out := by
  have hfind : findDept
      (db.departments ++ [⟨newId, p.name, p.location, p.manager_id, p.employee_ids⟩])
      newId = some ⟨newId, p.name, p.location, p.manager_id, p.employee_ids⟩ :=
    findDept_append_fresh db.departments
      ⟨newId, p.name, p.location, p.manager_id, p.employee_ids⟩ hfresh
  refine ⟨⟨newId, p.name, p.location, p.manager_id, p.employee_ids⟩,
    { db with departments :=
        db.departments ++ [⟨newId, p.name, p.location, p.manager_id, p.employee_ids⟩] },
    ?_, rfl, ?_, rfl, rfl, rfl, rfl, ?_⟩
  · simp [create_department, createBody, hfresh, hfind, handleAnyRoute]
  · intro h
    rw [h] at hv
    exact absurd hv (by decide)
  · simp [get_department, getBody, hv, hfind, handleIdRoute]

/-- Witness for C6: creating a department supplying only `name` on an empty
store, then fetching it back. -/
theorem create_then_get_roundtrip_witness :
    ∃ out db2,
      create_department ⟨[], [], []⟩ ⟨some "Engineering", none, none, none⟩
        "0123456789abcdef01234567" = (.ok out, db2) ∧
      out._id = "0123456789abcdef01234567" ∧ "0123456789abcdef01234567" ≠ "" ∧
      out.name = some "Engineering" ∧ out.location = none ∧
      out.manager_id = none ∧ out.employee_ids = none ∧
      get_department db2 "0123456789abcdef01234567" = .ok out :=
  create_then_get_roundtrip ⟨[], [], []⟩ ⟨some "Engineering", none, none, none⟩
    "0123456789abcdef01234567" (by decide) (by decide)

/-- The spec's filter for `get_by_name` (case-insensitive substring), lifted
to one document; used to compare the code's regex filter against the spec's
words. -/
def ciNameMatches (q : String) (d : DepartmentDoc) : Bool :=
  match d.name with
  | some nm => ciContains q nm
  | none => false

/-- On literal tokens, anchored regex matching is exact case-insensitive
prefix comparison of the lower-cased character lists. -/
theorem matchHere_lits : ∀ (ql sl : List Char),
    matchHere (ql.map RTok.lit) sl = hasPre (lowAll ql) (lowAll sl) := by
  intro ql
  induction ql with
  | nil => intro sl; rfl
  | cons a as ih =>
      intro sl
      cases sl with
      | nil => rfl
      | cons c cs => simp [matchHere, hasPre, lowAll, tokMatch, ih]

/-- On literal tokens, unanchored regex search is case-insensitive substring
containment. -/
theorem matchSome_lits : ∀ (ql sl : List Char),
    matchSome (ql.map RTok.lit) sl = hasSub (lowAll ql) (lowAll sl) := by
  intro ql sl
  induction sl with
  | nil => simpa [matchSome, hasSub, lowAll] using matchHere_lits ql []
  | cons c cs ih => simp [matchSome, hasSub, lowAll, matchHere_lits, ih]

/-- A query without regex metacharacters is read as a list of literal
tokens. -/
theorem strPat_of_no_meta (q : String)
    (h : q.toList.all (fun c => !(isRegexMeta c)) = true) :
    strPat q = q.toList.map RTok.lit := by
  unfold strPat
  apply List.map_congr_left
  intro c hc
  have hm : isRegexMeta c = false := by simpa using List.all_eq_true.mp h c hc
  have hdot : (c == '.') = false := by
    cases hcd : (c == '.') with
    | false => rfl
    | true => simp [isRegexMeta, hcd] at hm
  simp [hdot]

/-- Claim C7 (counterexample): the `name` query is passed to the store as a
regular-expression pattern, not escaped as a literal; the query `"a.c"`
matches a department named `"abc"` even though `"a.c"` is not a
case-insensitive substring of `"abc"`. -/
theorem findByName_treats_query_as_regex :
    get_departments_by_name
      ⟨[⟨"0123456789abcdef01234567", some "abc", none, none, none⟩], [], []⟩
      "a.c" 0 10 =
      .ok [⟨"0123456789abcdef01234567", some "abc", none, none, none⟩] ∧
    ciContains "a.c" "abc" = false :=
  ⟨rfl, rfl⟩

/-- Claim C7 (amended): for query strings without regex metacharacters the
regex filter coincides with case-insensitive substring containment on the
`name` field (with `skip`/`limit` applied); in particular `"engine"` finds
`"Engineering"`. -/
theorem findByName_ci_substring_for_literal_queries (db : DB) (q : String)
    (skip limit : Nat)
    (h : q.toList.all (fun c => !(isRegexMeta c)) = true) :
    get_departments_by_name db q skip limit =
      .ok (((db.departments.filter (ciNameMatches q)).drop skip).take limit) ∧
    ciContains "engine" "Engineering" = true := by
  refine ⟨?_, by decide⟩
  have hfilter : db.departments.filter (nameMatches q) =
      db.departments.filter (ciNameMatches q) := by
    apply List.filter_congr
    intro d _
    unfold nameMatches ciNameMatches
    cases d.name with
    | none => rfl
    | some nm =>
        show regexFindI q nm = ciContains q nm
        unfold regexFindI ciContains
        rw [strPat_of_no_meta q h, matchSome_lits]
  unfold get_departments_by_name
  rw [hfilter]

/-- Witness for (amended) C7: the literal query `"engine"` against a store
holding one department named `"Engineering"`. -/
theorem findByName_ci_substring_witness :
    get_departments_by_name
      ⟨[⟨"0123456789abcdef01234567", some "Engineering", none, none, none⟩], [], []⟩
      "engine" 0 10 =
      .ok ((([⟨"0123456789abcdef01234567", some "Engineering", none, none, none⟩].filter
        (ciNameMatches "engine")).drop 0).take 10) ∧
    ciContains "engine" "Engineering" = true :=
  findByName_ci_substring_for_literal_queries
    ⟨[⟨"0123456789abcdef01234567", some "Engineering", none, none, none⟩], [], []⟩
    "engine" 0 10 (by decide)

/-- Spec-side description of benefit resolution: the stored benefits (in
collection order) whose `_id` is the parse of one of the employee's benefit
id strings. -/
def resolvedBenefits (benefits : List BenefitDoc) (bids : List String) : List BenefitDoc :=
  benefits.filter (fun b => bids.any (fun bid => parseObjectId bid == some b._id))

/-- Spec-side description of one enriched employee. -/
def specEnrich (benefits : List BenefitDoc) (e : EmployeeDoc) : EnrichedEmployee :=
  { _id := e._id, department_id := e.department_id, benefits_id := e.benefits_id,
    benefits := resolvedBenefits benefits e.benefits_id }

/-- Spec-side description of one full-info entry. -/
def specEntry (db : DB) (dep : DepartmentDoc) : FullInfoEntry :=
  { department_id := dep._id, department_name := dep.name.getD "",
    location := dep.location,
    employees := (db.employees.filter (fun e => e.department_id == some dep._id)).map
      (specEnrich db.benefits) }

/-- When every id in the list parses, the benefit-id loop succeeds and the
parsed list contains exactly the parses of the input ids. -/
theorem parseAllIds_of_parseable :
    ∀ bs : List String, (∀ bid ∈ bs, (parseObjectId bid).isSome = true) →
    ∃ os, parseAllIds bs = some os ∧
      ∀ x : String, os.contains x = bs.any (fun bid => parseObjectId bid == some x) := by
  intro bs
  induction bs with
  | nil => intro _; exact ⟨[], rfl, fun x => by simp⟩
  | cons b bs ih =>
      intro h
      obtain ⟨o, ho⟩ := Option.isSome_iff_exists.mp (h b (by simp))
      obtain ⟨os, h1, h2⟩ := ih (fun bid hbid => h bid (by simp [hbid]))
      refine ⟨o :: os, by simp [parseAllIds, ho, h1], ?_⟩
      intro x
      rw [List.contains_cons, List.any_cons, h2 x, ho]
      have h3 : ((some o : Option String) == some x) = (x == o) := by
        show (o == x) = (x == o)
        exact Bool.beq_comm
      rw [h3]

/-- When every benefit id of every employee in the list parses, the
enrichment loop succeeds and produces the spec-side enrichment. -/
theorem mapE_enrich (B : List BenefitDoc) :
    ∀ es : List EmployeeDoc,
    (∀ e ∈ es, ∀ bid ∈ e.benefits_id, (parseObjectId bid).isSome = true) →
    mapE (enrichEmp B) es = .ok (es.map (specEnrich B)) := by
  intro es
  induction es with
  | nil => intro _; rfl
  | cons e es ih =>
      intro h
      obtain ⟨os, h1, h2⟩ := parseAllIds_of_parseable e.benefits_id (h e (by simp))
      have henrich : enrichEmp B e = .ok (specEnrich B e) := by
        unfold enrichEmp
        rw [h1]
        show Except.ok
            { _id := e._id, department_id := e.department_id,
              benefits_id := e.benefits_id,
              benefits := List.filter (fun b => os.contains b._id) B } =
          Except.ok (specEnrich B e)
        rw [List.filter_congr (fun b _ => h2 b._id)]
        rfl
      have hrest := ih (fun e2 he2 => h e2 (by simp [he2]))
      simp [mapE, henrich, hrest]

/-- When every department in the list has a `name` field and every stored
employee's benefit ids parse, the department loop succeeds and produces the
spec-side entries. -/
theorem mapE_entries (db : DB)
    (hb : ∀ e ∈ db.employees, ∀ bid ∈ e.benefits_id, (parseObjectId bid).isSome = true) :
    ∀ ds : List DepartmentDoc, (∀ d ∈ ds, (d.name).isSome = true) →
    mapE (entryFor db) ds = .ok (ds.map (specEntry db)) := by
  intro ds
  induction ds with
  | nil => intro _; rfl
  | cons d ds ih =>
      intro h
      obtain ⟨nm, hnm⟩ := Option.isSome_iff_exists.mp (h d (by simp))
      have hemp := mapE_enrich db.benefits
        (db.employees.filter (fun e => e.department_id == some d._id))
        (fun e he => hb e (List.mem_filter.mp he).1)
      have hentry : entryFor db d = .ok (specEntry db d) := by
        simp [entryFor, hnm, hemp, specEntry]
      have hrest := ih (fun d2 hd2 => h d2 (by simp [hd2]))
      simp [mapE, hentry, hrest]

/-- Claim C3 (amended): when every department document has a `name` and every
benefit identifier held by the stored employees *parses*, the full-info route
succeeds and resolves each employee's `benefits_id` into exactly the stored
Benefit records whose id is among them — identifiers that parse but match no
Benefit are silently discarded.  Concretely, an employee holding two
parseable benefit ids of which only one exists gets exactly one resolved
benefit.  (Identifiers that fail to parse are *not* discarded: they fail the
whole request with 500, see the counterexample.) -/
theorem fullinfo_resolves_parseable_ids (db : DB)
    (hn : ∀ d ∈ db.departments, (d.name).isSome = true)
    (hb : ∀ e ∈ db.employees, ∀ bid ∈ e.benefits_id, (parseObjectId bid).isSome = true) :
    get_departments_with_employees_and_benefits db =
      .ok (db.departments.map (specEntry db)) ∧
    get_departments_with_employees_and_benefits
      ⟨[⟨"0123456789abcdef01234567", some "D", none, none, none⟩],
       [⟨"e1", some "0123456789abcdef01234567",
         ["aaaaaaaaaaaaaaaaaaaaaaaa", "bbbbbbbbbbbbbbbbbbbbbbbb"]⟩],
       [⟨"aaaaaaaaaaaaaaaaaaaaaaaa", some "B1"⟩]⟩ =
      .ok [⟨"0123456789abcdef01234567", "D", none,
        [⟨"e1", some "0123456789abcdef01234567",
          ["aaaaaaaaaaaaaaaaaaaaaaaa", "bbbbbbbbbbbbbbbbbbbbbbbb"],
          [⟨"aaaaaaaaaaaaaaaaaaaaaaaa", some "B1"⟩]⟩]⟩] := by
  refine ⟨?_, rfl⟩
  unfold get_departments_with_employees_and_benefits fullInfoBody
  rw [mapE_entries db hb db.departments hn]
  rfl

/-- Witness for (amended) C3 on a concrete store whose single employee holds
two parseable benefit ids, one matching a stored benefit and one not. -/
theorem fullinfo_resolves_parseable_ids_witness :
    get_departments_with_employees_and_benefits
      ⟨[⟨"0123456789abcdef01234567", some "D", none, none, none⟩],
       [⟨"e1", some "0123456789abcdef01234567",
         ["aaaaaaaaaaaaaaaaaaaaaaaa", "bbbbbbbbbbbbbbbbbbbbbbbb"]⟩],
       [⟨"aaaaaaaaaaaaaaaaaaaaaaaa", some "B1"⟩]⟩ =
      .ok ((⟨[⟨"0123456789abcdef01234567", some "D", none, none, none⟩],
       [⟨"e1", some "0123456789abcdef01234567",
         ["aaaaaaaaaaaaaaaaaaaaaaaa", "bbbbbbbbbbbbbbbbbbbbbbbb"]⟩],
       [⟨"aaaaaaaaaaaaaaaaaaaaaaaa", some "B1"⟩]⟩ : DB).departments.map
        (specEntry ⟨[⟨"0123456789abcdef01234567", some "D", none, none, none⟩],
          [⟨"e1", some "0123456789abcdef01234567",
            ["aaaaaaaaaaaaaaaaaaaaaaaa", "bbbbbbbbbbbbbbbbbbbbbbbb"]⟩],
          [⟨"aaaaaaaaaaaaaaaaaaaaaaaa", some "B1"⟩]⟩)) ∧
    get_departments_with_employees_and_benefits
      ⟨[⟨"0123456789abcdef01234567", some "D", none, none, none⟩],
       [⟨"e1", some "0123456789abcdef01234567",
         ["aaaaaaaaaaaaaaaaaaaaaaaa", "bbbbbbbbbbbbbbbbbbbbbbbb"]⟩],
       [⟨"aaaaaaaaaaaaaaaaaaaaaaaa", some "B1"⟩]⟩ =
      .ok [⟨"0123456789abcdef01234567", "D", none,
        [⟨"e1", some "0123456789abcdef01234567",
          ["aaaaaaaaaaaaaaaaaaaaaaaa", "bbbbbbbbbbbbbbbbbbbbbbbb"],
          [⟨"aaaaaaaaaaaaaaaaaaaaaaaa", some "B1"⟩]⟩]⟩] :=
  fullinfo_resolves_parseable_ids
    ⟨[⟨"0123456789abcdef01234567", some "D", none, none, none⟩],
     [⟨"e1", some "0123456789abcdef01234567",
       ["aaaaaaaaaaaaaaaaaaaaaaaa", "bbbbbbbbbbbbbbbbbbbbbbbb"]⟩],
     [⟨"aaaaaaaaaaaaaaaaaaaaaaaa", some "B1"⟩]⟩
    (by decide) (by decide)

end DeptService
